import Mathlib

/-!
Shallow embedding of `src/value.rs` of the csa-rs repository: the CSA V2.2
shogi game-record data model and its text renderers (the `fmt::Display`
implementations). Each Rust type becomes a Lean structure or inductive with
the same fields, and each `Display` implementation becomes a `render`
function producing the same string, with `writeln!` modelled as appending a
`"\n"`-terminated piece and sequential writes modelled as concatenation in
order.
-/

namespace Csa

/-- Concatenation of a list of strings in order; models a loop of sequential
writes to the formatter. -/
def strJoin (l : List String) : String :=
  l.foldr (fun a b => a ++ b) ""

/-- Rust `{:02}` formatting of an unsigned integer: zero-padded to width 2,
wider numbers printed in full. -/
def pad2 (n : Nat) : String :=
  if n < 10 then "0" ++ toString n else toString n

/-- The `Color` enum (value.rs lines 146-150). -/
inductive Color where
  | Black
  | White
deriving DecidableEq

/-- Display for `Color` (value.rs lines 158-165). -/
def Color.render : Color → String
  | .Black => "+"
  | .White => "-"

/-- The `PieceType` enum (value.rs lines 189-206). -/
inductive PieceType where
  | Pawn
  | Lance
  | Knight
  | Silver
  | Gold
  | Bishop
  | Rook
  | King
  | ProPawn
  | ProLance
  | ProKnight
  | ProSilver
  | Horse
  | Dragon
  | All
deriving DecidableEq

/-- Display for `PieceType` (value.rs lines 208-229). -/
def PieceType.render : PieceType → String
  | .Pawn => "FU"
  | .Lance => "KY"
  | .Knight => "KE"
  | .Silver => "GI"
  | .Gold => "KI"
  | .Bishop => "KA"
  | .Rook => "HI"
  | .King => "OU"
  | .ProPawn => "TO"
  | .ProLance => "NY"
  | .ProKnight => "NK"
  | .ProSilver => "NG"
  | .Horse => "UM"
  | .Dragon => "RY"
  | .All => "AL"

/-- The `Square` struct (value.rs lines 169-173); `file` and `rank` are `u8`
in the source, modelled as `Nat` (Display prints their decimal digits either
way). -/
structure Square where
  file : Nat
  rank : Nat
deriving DecidableEq

/-- Display for `Square` (value.rs lines 181-185): the two numbers printed
with no separator and no padding. -/
def Square.render (s : Square) : String :=
  toString s.file ++ toString s.rank

/-- The date part of `time::Date` as the renderer observes it: `year()` is
`i32`, `month() as u8` and `day()` are numerals (value.rs line 3 imports it
as `NativeDate`). -/
structure NativeDate where
  year : Int
  month : Nat
  day : Nat
deriving DecidableEq

/-- The time-of-day part of `time::Time` as the renderer observes it:
`hour()`, `minute()`, `second()` (value.rs line 3 imports it as
`NativeTime`). -/
structure NativeTime where
  hour : Nat
  minute : Nat
  second : Nat
deriving DecidableEq

/-- The `Time` struct (value.rs lines 62-65). -/
structure Time where
  date : NativeDate
  time : Option NativeTime
deriving DecidableEq

/-- Display for `Time` (value.rs lines 78-99): `"{}/{:02}/{:02}"` for the
date, then, when the time-of-day is present, `" {}:{:02}:{:02}"`. Note the
hour is formatted with `{}` (no padding) in the source. -/
def Time.render (t : Time) : String :=
  toString t.date.year ++ "/" ++ pad2 t.date.month ++ "/" ++ pad2 t.date.day ++
    match t.time with
    | some tod => " " ++ toString tod.hour ++ ":" ++ pad2 tod.minute ++ ":" ++ pad2 tod.second
    | none => ""

/-- `std::time::Duration` as the renderers observe it: `as_secs()` yields the
whole number of seconds (sub-second precision is never read by this code). -/
structure Duration where
  secs : Nat
deriving DecidableEq

/-- Rust `Duration::as_secs`. -/
def Duration.as_secs (d : Duration) : Nat := d.secs

/-- The `TimeLimit` struct (value.rs lines 103-107). -/
structure TimeLimit where
  main_time : Duration
  byoyomi : Duration
deriving DecidableEq

/-- Display for `TimeLimit` (value.rs lines 109-123):
`"{:02}:{:02}+{:02}"` with `hours = secs / 3600`,
`minutes = (secs % 3600) / 60`, and the byoyomi seconds. -/
def TimeLimit.render (t : TimeLimit) : String :=
  pad2 (t.main_time.as_secs / 3600) ++ ":" ++ pad2 (t.main_time.as_secs % 3600 / 60) ++ "+" ++
    pad2 t.byoyomi.as_secs

/-- The `Board` type alias (value.rs line 233): a fixed 9x9 grid of optional
(Color, PieceType) cells, modelled as a function from row and column index. -/
def Board := Fin 9 → Fin 9 → Option (Color × PieceType)

/-- The `Position` struct (value.rs lines 235-241). -/
structure Position where
  drop_pieces : List (Square × PieceType)
  bulk : Option Board
  add_pieces : List (Color × Square × PieceType)
  side_to_move : Color

/-- One cell of the bulk layout (value.rs lines 250-253): the color token
followed by the piece-type token for an occupied cell, or the literal
three characters space-asterisk-space for an empty cell. -/
def Position.cellRender : Option (Color × PieceType) → String
  | some (c, pt) => c.render ++ pt.render
  | none => " * "

/-- One row of the bulk layout (value.rs lines 246-257): `P` followed by the
one-based row number, then the nine cells, then the line terminator. -/
def Position.bulkRow (b : Board) (i : Fin 9) : String :=
  "P" ++ toString (i.val + 1) ++
    strJoin ((List.finRange 9).map (fun j => Position.cellRender (b i j))) ++ "\n"

/-- Display for `Position` (value.rs lines 243-274): the bulk layout when the
grid is present, otherwise `PI` followed by the drop list; then one line per
`add_pieces` entry; then the side-to-move line. -/
def Position.render (p : Position) : String :=
  (match p.bulk with
   | some b => strJoin ((List.finRange 9).map (fun i => Position.bulkRow b i))
   | none => "PI" ++ strJoin (p.drop_pieces.map (fun e => e.1.render ++ e.2.render)) ++ "\n") ++
  strJoin (p.add_pieces.map (fun e => "P" ++ e.1.render ++ e.2.1.render ++ e.2.2.render ++ "\n")) ++
  p.side_to_move.render ++ "\n"

/-- The `Action` enum (value.rs lines 278-294). -/
inductive Action where
  | Move : Color → Square → Square → PieceType → Action
  | Toryo
  | Chudan
  | Sennichite
  | TimeUp
  | IllegalMove
  | IllegalAction : Color → Action
  | Jishogi
  | Kachi
  | Hikiwake
  | Matta
  | Tsumi
  | Fuzumi
  | Error

/-- Display for `Action` (value.rs lines 296-317). -/
def Action.render : Action → String
  | .Move color fromSq toSq pt => color.render ++ fromSq.render ++ toSq.render ++ pt.render
  | .Toryo => "%TORYO"
  | .Chudan => "%CHUDAN"
  | .Sennichite => "%SENNICHITE"
  | .TimeUp => "%TIME_UP"
  | .IllegalMove => "%ILLEGAL_MOVE"
  | .IllegalAction color => "%" ++ color.render ++ "ILLEGAL_ACTION"
  | .Jishogi => "%JISHOGI"
  | .Kachi => "%KACHI"
  | .Hikiwake => "%HIKIWAKE"
  | .Matta => "%MATTA"
  | .Tsumi => "%TSUMI"
  | .Fuzumi => "%FUZUMI"
  | .Error => "%ERROR"

/-- The `MoveRecord` struct (value.rs lines 321-325). -/
structure MoveRecord where
  action : Action
  time : Option Duration

/-- Display for `MoveRecord` (value.rs lines 327-337): the action line, then
a `T<seconds>` line when the elapsed time is present. -/
def MoveRecord.render (m : MoveRecord) : String :=
  m.action.render ++ "\n" ++
    match m.time with
    | some t => "T" ++ toString t.as_secs ++ "\n"
    | none => ""

/-- The `GameRecord` struct (value.rs lines 5-17). -/
structure GameRecord where
  black_player : Option String
  white_player : Option String
  event : Option String
  site : Option String
  start_time : Option Time
  end_time : Option Time
  time_limit : Option TimeLimit
  opening : Option String
  start_pos : Position
  moves : List MoveRecord

/-- The metadata array of the `GameRecord` Display implementation (value.rs
lines 24-39): the eight (key, optional rendered value) pairs in source
order. -/
def GameRecord.metadata (g : GameRecord) : List (String × Option String) :=
  [("N+", g.black_player),
   ("N-", g.white_player),
   ("$EVENT:", g.event),
   ("$SITE:", g.site),
   ("$START_TIME:", g.start_time.map Time.render),
   ("$END_TIME:", g.end_time.map Time.render),
   ("$TIME_LIMIT:", g.time_limit.map TimeLimit.render),
   ("$OPENING:", g.opening)]

/-- The body of the metadata loop (value.rs lines 40-44): write
`key ++ value` and a line terminator when the value is present, nothing when
it is absent. -/
def GameRecord.metaLine (kv : String × Option String) : String :=
  match kv.2 with
  | some v => kv.1 ++ v ++ "\n"
  | none => ""

/-- Display for `GameRecord` (value.rs lines 19-56): the `V2.2` line, the
present metadata lines in order, the position, then each move record in
order. -/
def GameRecord.render (g : GameRecord) : String :=
  "V2.2\n" ++ strJoin (g.metadata.map GameRecord.metaLine) ++ g.start_pos.render ++
    strJoin (g.moves.map MoveRecord.render)

/-!
Spec-side definitions, written from the words of the specification, used to
compare the renderers against the documented output shape.
-/

/-- Spec description of one metadata line: the key followed by the value and
a line terminator when the field is present, nothing at all (no blank line)
when it is absent. -/
def optLine (key : String) (v : Option String) : String :=
  match v with
  | some s => key ++ s ++ "\n"
  | none => ""

/-- Spec description of one cell of the bulk layout: the color token
followed by the piece-type token for an occupied cell, or the three
characters space, asterisk, space for an empty cell. -/
def specCell (o : Option (Color × PieceType)) : String :=
  match o with
  | some cpt => cpt.1.render ++ cpt.2.render
  | none => " * "

/-- Spec description of one row of the bulk layout, for a one-based row
index: `P` followed by the digit of the row number, then the nine cells of
the row in order, then the line terminator. -/
def specRow (b : Board) (i : Fin 9) : String :=
  "P" ++ toString (i.val + 1) ++ strJoin ((List.finRange 9).map (fun j => specCell (b i j))) ++ "\n"

/-- The game record built by the `game_record` unit test (value.rs lines
400-433). -/
def exampleGameRecord : GameRecord where
  black_player := some "NAKAHARA"
  white_player := some "YONENAGA"
  event := some "13th World Computer Shogi Championship"
  site := some "KAZUSA ARC"
  start_time := some ⟨⟨2003, 5, 3⟩, some ⟨10, 30, 0⟩⟩
  end_time := some ⟨⟨2003, 5, 3⟩, some ⟨11, 11, 5⟩⟩
  time_limit := some ⟨⟨1500⟩, ⟨0⟩⟩
  opening := some "YAGURA"
  start_pos := ⟨[], none, [], .Black⟩
  moves := [⟨.Move .Black ⟨8, 7⟩ ⟨8, 6⟩ .Pawn, some ⟨5⟩⟩, ⟨.Toryo, none⟩]

/-- Helper: the metadata loop body of the GameRecord renderer agrees with
the spec's description of an optional metadata line. -/
theorem metaLine_eq_optLine (key : String) (v : Option String) :
    GameRecord.metaLine (key, v) = optLine key v := by
  cases v <;> rfl

/-- Helper: the source cell renderer agrees with the spec's description of a
bulk cell. -/
theorem cellRender_eq_specCell (o : Option (Color × PieceType)) :
    Position.cellRender o = specCell o := by
  rcases o with _ | ⟨c, pt⟩ <;> rfl

/-- C1: the specific game record of the spec (NAKAHARA vs YONENAGA, the
13th World Computer Shogi Championship at KAZUSA ARC, times 10:30:00 to
11:11:05 on 2003-05-03, time limit 1500 s + 0 s byoyomi, opening YAGURA,
empty sparse position with Black to move, one pawn move with 5 s elapsed
then Toryo) renders to exactly the documented string. -/
theorem game_record_example_render :
    exampleGameRecord.render =
      "V2.2\nN+NAKAHARA\nN-YONENAGA\n$EVENT:13th World Computer Shogi Championship\n$SITE:KAZUSA ARC\n$START_TIME:2003/05/03 10:30:00\n$END_TIME:2003/05/03 11:11:05\n$TIME_LIMIT:00:25+00\n$OPENING:YAGURA\nPI\n+\n+8786FU\nT5\n%TORYO\n" := by
  rfl

/-- C2: every GameRecord renders as the `V2.2` line, then the eight metadata
lines in the fixed order with absent fields contributing nothing, then the
position, then the move records in list order; with all eight metadata
fields absent only the `V2.2` line, the position block and the move lines
remain. -/
theorem game_record_render_structure (g : GameRecord) :
    g.render =
      "V2.2\n" ++
        (optLine "N+" g.black_player ++
          (optLine "N-" g.white_player ++
            (optLine "$EVENT:" g.event ++
              (optLine "$SITE:" g.site ++
                (optLine "$START_TIME:" (g.start_time.map Time.render) ++
                  (optLine "$END_TIME:" (g.end_time.map Time.render) ++
                    (optLine "$TIME_LIMIT:" (g.time_limit.map TimeLimit.render) ++
                      optLine "$OPENING:" g.opening))))))) ++
        g.start_pos.render ++ strJoin (g.moves.map MoveRecord.render) ∧
    (∀ (pos : Position) (moves : List MoveRecord),
      GameRecord.render ⟨none, none, none, none, none, none, none, none, pos, moves⟩ =
        "V2.2\n" ++ pos.render ++ strJoin (moves.map MoveRecord.render)) := by
  constructor
  · simp [GameRecord.render, GameRecord.metadata, strJoin, metaLine_eq_optLine,
      String.append_assoc, String.append_empty]
  · intro pos moves
    simp [GameRecord.render, GameRecord.metadata, GameRecord.metaLine, strJoin,
      String.append_assoc, String.append_empty, String.empty_append]

/-- C3: every Position renders as its primary layout (the nine bulk rows
when the grid is present, otherwise the `PI` line carrying the drop list in
order, an empty drop list yielding `PI` alone), then one `P` line per
add_pieces entry in order, then the side-to-move line. -/
theorem position_render_structure (p : Position) :
    p.render =
      (match p.bulk with
       | some b => strJoin ((List.finRange 9).map (fun i => specRow b i))
       | none =>
         "PI" ++ strJoin (p.drop_pieces.map (fun e => e.1.render ++ e.2.render)) ++ "\n") ++
      strJoin (p.add_pieces.map (fun e => "P" ++ e.1.render ++ e.2.1.render ++ e.2.2.render ++ "\n")) ++
      p.side_to_move.render ++ "\n" ∧
    Position.render ⟨[], none, p.add_pieces, p.side_to_move⟩ =
      "PI" ++ "\n" ++
        strJoin (p.add_pieces.map (fun e => "P" ++ e.1.render ++ e.2.1.render ++ e.2.2.render ++ "\n")) ++
        p.side_to_move.render ++ "\n" := by
  constructor
  · obtain ⟨drops, b, adds, stm⟩ := p
    cases b <;>
      simp [Position.render, Position.bulkRow, specRow, cellRender_eq_specCell,
        String.append_assoc, String.append_empty, String.empty_append]
  · simp [Position.render, strJoin, String.append_assoc, String.append_empty,
      String.empty_append]

/-- C4: a TimeLimit renders as the zero-padded hour and minute parts of the
main time joined by a colon, then a plus sign and the zero-padded byoyomi
seconds; the sub-minute seconds of the main time never affect the output;
1500 s main time with 0 s byoyomi renders as `00:25+00`. -/
theorem time_limit_render_formula (t : TimeLimit) :
    t.render =
      pad2 (t.main_time.as_secs / 3600) ++ ":" ++ pad2 (t.main_time.as_secs % 3600 / 60) ++ "+" ++
        pad2 t.byoyomi.as_secs ∧
    TimeLimit.render ⟨⟨t.main_time.as_secs - t.main_time.as_secs % 60⟩, t.byoyomi⟩ = t.render ∧
    TimeLimit.render ⟨⟨1500⟩, ⟨0⟩⟩ = "00:25+00" := by
  refine ⟨rfl, ?_, by decide⟩
  have h1 : (t.main_time.secs - t.main_time.secs % 60) / 3600 =
      t.main_time.secs / 3600 := by omega
  have h2 : (t.main_time.secs - t.main_time.secs % 60) % 3600 / 60 =
      t.main_time.secs % 3600 / 60 := by omega
  simp [TimeLimit.render, Duration.as_secs, h1, h2]

/-- C5: a Move action renders as the color token, the from square, the to
square and the piece-type token with no separators, and every other Action
variant renders as a percent sign followed by its fixed literal, with
IllegalAction carrying the color token between the percent sign and the
literal. -/
theorem action_render_tokens :
    (∀ (c : Color) (f t : Square) (pt : PieceType),
      (Action.Move c f t pt).render = c.render ++ f.render ++ t.render ++ pt.render) ∧
    (Action.Move .Black ⟨7, 7⟩ ⟨7, 6⟩ .Pawn).render = "+7776FU" ∧
    Action.Toryo.render = "%TORYO" ∧
    Action.Chudan.render = "%CHUDAN" ∧
    Action.Sennichite.render = "%SENNICHITE" ∧
    Action.TimeUp.render = "%TIME_UP" ∧
    Action.IllegalMove.render = "%ILLEGAL_MOVE" ∧
    Action.Jishogi.render = "%JISHOGI" ∧
    Action.Kachi.render = "%KACHI" ∧
    Action.Hikiwake.render = "%HIKIWAKE" ∧
    Action.Matta.render = "%MATTA" ∧
    Action.Tsumi.render = "%TSUMI" ∧
    Action.Fuzumi.render = "%FUZUMI" ∧
    Action.Error.render = "%ERROR" ∧
    (∀ c : Color, (Action.IllegalAction c).render = "%" ++ c.render ++ "ILLEGAL_ACTION") ∧
    (Action.IllegalAction .Black).render = "%+ILLEGAL_ACTION" ∧
    (Action.IllegalAction .White).render = "%-ILLEGAL_ACTION" :=
  ⟨fun _ _ _ _ => rfl, rfl, rfl, rfl, rfl, rfl, rfl, rfl, rfl, rfl, rfl, rfl, rfl, rfl,
    fun _ => rfl, rfl, rfl⟩

/-- C6: every PieceType variant renders as exactly its documented two-letter
code, all fifteen cases. -/
theorem piece_type_render_codes :
    PieceType.Pawn.render = "FU" ∧ PieceType.Lance.render = "KY" ∧
    PieceType.Knight.render = "KE" ∧ PieceType.Silver.render = "GI" ∧
    PieceType.Gold.render = "KI" ∧ PieceType.Bishop.render = "KA" ∧
    PieceType.Rook.render = "HI" ∧ PieceType.King.render = "OU" ∧
    PieceType.ProPawn.render = "TO" ∧ PieceType.ProLance.render = "NY" ∧
    PieceType.ProKnight.render = "NK" ∧ PieceType.ProSilver.render = "NG" ∧
    PieceType.Horse.render = "UM" ∧ PieceType.Dragon.render = "RY" ∧
    PieceType.All.render = "AL" :=
  ⟨rfl, rfl, rfl, rfl, rfl, rfl, rfl, rfl, rfl, rfl, rfl, rfl, rfl, rfl, rfl⟩

/-- C7: a Time renders as the year, slash, zero-padded month, slash,
zero-padded day, and when the time-of-day is present a space followed by the
unpadded hour, colon, zero-padded minute, colon, zero-padded second; a
single-digit hour renders as exactly one digit, e.g. hour 9 as `9`. -/
theorem time_render_format (y : Int) (mo d : Nat) :
    Time.render ⟨⟨y, mo, d⟩, none⟩ = toString y ++ "/" ++ pad2 mo ++ "/" ++ pad2 d ∧
    (∀ h mi s : Nat,
      Time.render ⟨⟨y, mo, d⟩, some ⟨h, mi, s⟩⟩ =
        toString y ++ "/" ++ pad2 mo ++ "/" ++ pad2 d ++
          (" " ++ toString h ++ ":" ++ pad2 mi ++ ":" ++ pad2 s)) ∧
    Time.render ⟨⟨2003, 5, 3⟩, some ⟨9, 30, 0⟩⟩ = "2003/05/03 9:30:00" := by
  refine ⟨?_, fun h mi s => ?_, by decide⟩
  · simp [Time.render, String.append_empty]
  · simp [Time.render, String.append_assoc]

/-- C8 counterexample: at a Time with hour 9 the rendering carries a
one-digit hour, so the hour is not zero-padded to 2 digits as the claim
states. -/
theorem time_hour_padding_cex :
    Time.render ⟨⟨2003, 5, 3⟩, some ⟨9, 5, 7⟩⟩ = "2003/05/03 9:05:07" ∧
    Time.render ⟨⟨2003, 5, 3⟩, some ⟨9, 5, 7⟩⟩ ≠ "2003/05/03 09:05:07" := by
  constructor
  · rfl
  · decide

/-- C8 amended: for a Time with the time-of-day present, the month, day,
minute and second are rendered zero-padded to 2 digits, while both the year
and the hour are exempt from zero-padding. -/
theorem time_render_padding_amended (y : Int) (mo d h mi s : Nat) :
    Time.render ⟨⟨y, mo, d⟩, some ⟨h, mi, s⟩⟩ =
      toString y ++ "/" ++ pad2 mo ++ "/" ++ pad2 d ++
        (" " ++ toString h ++ ":" ++ pad2 mi ++ ":" ++ pad2 s) := by
  simp [Time.render, String.append_assoc]

/-- C9: when the bulk grid is present, the drop_pieces list has no effect on
the rendering: two Positions sharing the grid, the add_pieces list and the
side to move render identically whatever their drop lists are. -/
theorem bulk_ignores_drop_pieces (drops1 drops2 : List (Square × PieceType)) (b : Board)
    (adds : List (Color × Square × PieceType)) (stm : Color) :
    Position.render ⟨drops1, some b, adds, stm⟩ = Position.render ⟨drops2, some b, adds, stm⟩ :=
  rfl

/-- C10: every renderer is total: applied to any well-typed value it
produces a string, with no error path; the renderers are total computable
functions by construction. -/
theorem renderers_total (g : GameRecord) (p : Position) (m : MoveRecord) (a : Action)
    (t : Time) (tl : TimeLimit) (c : Color) (sq : Square) (pt : PieceType) :
    (∃ s, g.render = s) ∧ (∃ s, p.render = s) ∧ (∃ s, m.render = s) ∧
    (∃ s, a.render = s) ∧ (∃ s, t.render = s) ∧ (∃ s, tl.render = s) ∧
    (∃ s, c.render = s) ∧ (∃ s, sq.render = s) ∧ (∃ s, pt.render = s) :=
  ⟨⟨_, rfl⟩, ⟨_, rfl⟩, ⟨_, rfl⟩, ⟨_, rfl⟩, ⟨_, rfl⟩, ⟨_, rfl⟩, ⟨_, rfl⟩, ⟨_, rfl⟩, ⟨_, rfl⟩⟩

end Csa
